import Mathlib

/-!
Verification of the session/playback orchestrator in `src/main.ts` of the
voice-chat example client.

The program is a single browser module whose state is a set of module-level
mutable variables (`client`, `socket`, `connected`, `recorder`, `audioStream`,
`currentAudio`, `isPlaying`, `resumeChats`, `chatGroupId`, `audioQueue`,
`isConnected`).  We embed that state as the record `AppState` and each
function of the module (`connect`, `disconnect`, `playAudio`, `stopAudio`,
`handleWebSocketMessageEvent`, `handleWebSocketOpenEvent`,
`handleWebSocketCloseEvent`, `toggleConnection`, and the recorder and
`onended` callbacks) as a state transformer.  Asynchronous functions are
modelled as resolving within one event-loop turn; the success of the remote
`connect` handshake is an explicit boolean parameter.

Ghost (observation-only) components, which no handler reads to make a
decision:
  * `log`       — the externally observable actions (connect attempts with
                  the `resumedChatGroupId` they carry, diagnostic reports,
                  outbound `sendAudioInput` calls);
  * `transports`— the history of all sockets ever created, each recording
                  whether it has been closed, so that "at most one live
                  transport" is expressible; the variable `socket` is the
                  index of the transport currently referenced;
  * `rendering` — the chunk physically being rendered by the audio output
                  (set by `currentAudio.play()`, cleared when that element
                  finishes or is paused);
  * `played`    — every chunk whose playback has started, in start order;
  * `enqueued`  — every chunk ever pushed onto `audioQueue`, in push order.
-/

/-- An inbound audio chunk: `convertBase64ToBlob(data, mimeType)` packages the
base64 payload with the negotiated mime type. -/
structure Blob where
  data : String
  mime : String
deriving DecidableEq, Repr

/-- One WebSocket (`ChatSocket`) instance: the resume identifier passed when it
was created, and whether it has been closed. -/
structure Transport where
  resumedChatGroupId : Option String
  closed : Bool
deriving DecidableEq, Repr

/-- The inbound `SubscribeEvent` tagged union.  The `switch` in
`handleWebSocketMessageEvent` recognizes only the first three kinds; the
remaining constructors stand for the other event kinds of the API. -/
inductive SubscribeEvent where
  | chatMetadata (chatGroupId : String)
  | audioOutput (data : String)
  | userInterruption
  | userMessage
  | assistantMessage
  | assistantEnd
  | toolCall
  | toolResponse
  | webSocketError
deriving DecidableEq, Repr

/-- Externally observable actions of the orchestrator. -/
inductive OutAction where
  | connectAttempt (resumedChatGroupId : Option String)
  | reportError
  | sendAudioInput (data : String)
deriving DecidableEq, Repr

/-- The module-level mutable state of `main.ts`, plus the ghost fields
described in the header.  Nullable references that the logic only tests for
presence (`client`, `recorder`, `audioStream`) are booleans. -/
structure AppState where
  client : Bool
  transports : List Transport
  socket : Option Nat
  connected : Bool
  recorder : Bool
  audioStream : Bool
  currentAudio : Option Blob
  isPlaying : Bool
  resumeChats : Bool
  chatGroupId : Option String
  audioQueue : List Blob
  isConnected : Bool
  rendering : Option Blob
  played : List Blob
  enqueued : List Blob
  log : List OutAction
deriving DecidableEq, Repr

/-- The mime type selected at startup.  `getBrowserSupportedMimeType` probes
the browser; we model the environment-independent fallback `MimeType.WEBM`. -/
def mimeType : String := "audio/webm"

/-- The SDK helper turning a base64 payload into a playable blob. -/
def convertBase64ToBlob (data : String) (mime : String) : Blob :=
  { data := data, mime := mime }

/-- `handleError`: routes an error to the diagnostics channel
(`console.error`). -/
def handleError (s : AppState) : AppState :=
  { s with log := s.log ++ [OutAction.reportError] }

/-- `playAudio()`: returns immediately if the queue is empty or audio is
already playing; otherwise sets `isPlaying`, shifts the next blob off the
queue (with the early return in case `shift()` yields `undefined`), creates
the audio element and starts playback, registering the `onended` callback. -/
def playAudio (s : AppState) : AppState :=
  if s.audioQueue.isEmpty || s.isPlaying then s
  else
    let s1 := { s with isPlaying := true }
    match s1.audioQueue with
    | [] => s1
    | audioBlob :: rest =>
        { s1 with
            audioQueue := rest,
            currentAudio := some audioBlob,
            rendering := some audioBlob,
            played := s1.played ++ [audioBlob] }

/-- The `onended` closure attached to each audio element: clears `isPlaying`
and, if the queue is non-empty, calls `playAudio()` again. -/
def onended (s : AppState) : AppState :=
  let s1 := { s with isPlaying := false }
  if s1.audioQueue.length ≠ 0 then playAudio s1 else s1

/-- A genuine render-completion: the element currently being rendered
finishes (so `rendering` empties) and its `onended` closure runs.  When
nothing is rendering there is nothing to complete. -/
def renderComplete (s : AppState) : AppState :=
  match s.rendering with
  | none => s
  | some _ => onended { s with rendering := none }

/-- `stopAudio()`: pauses and drops the current audio element (halting any
rendering), clears `isPlaying`, and empties the queue. -/
def stopAudio (s : AppState) : AppState :=
  { s with
      rendering := none,
      currentAudio := none,
      isPlaying := false,
      audioQueue := [] }

/-- Marks the transport at index `i` closed; other entries are untouched. -/
def markClosed : List Transport → Nat → List Transport
  | [], _ => []
  | t :: ts, 0 => { t with closed := true } :: ts
  | t :: ts, n + 1 => t :: markClosed ts n

/-- `connect()`: creates the client if absent, then attempts the handshake,
passing the current `chatGroupId` as `resumedChatGroupId`.  On success the
new socket is stored (the previous reference is overwritten, not closed)
and `isConnected` is set; on failure the error is routed to diagnostics and
the state is otherwise left as it was. -/
def connect (succ : Bool) (s : AppState) : AppState :=
  let s1 := { s with client := true }
  let s2 := { s1 with log := s1.log ++ [OutAction.connectAttempt s1.chatGroupId] }
  if succ then
    { s2 with
        transports := s2.transports ++ [{ resumedChatGroupId := s2.chatGroupId, closed := false }],
        socket := some s2.transports.length,
        isConnected := true }
  else
    handleError s2

/-- `disconnect()`: stops playback, stops and drops the recorder and the
audio stream, clears the intent flag, conditionally clears `chatGroupId`
when resumption is disabled, requests the socket close, and clears
`isConnected`.  The socket reference itself is not reset. -/
def disconnect (s : AppState) : AppState :=
  let s1 := stopAudio s
  let s2 := { s1 with recorder := false, audioStream := false }
  let s3 := { s2 with connected := false }
  let s4 := if s3.resumeChats then s3 else { s3 with chatGroupId := none }
  let s5 :=
    match s4.socket with
    | some i => { s4 with transports := markClosed s4.transports i }
    | none => s4
  { s5 with isConnected := false }

/-- `captureAudio()`: acquires the microphone stream and starts the chunked
recorder (modelled as the two presence flags). -/
def captureAudio (s : AppState) : AppState :=
  { s with audioStream := true, recorder := true }

/-- The `ondataavailable` callback of the recorder: a chunk of size zero is
dropped; otherwise the chunk is base64 encoded and, if a socket reference is
present, sent as an `audio_input` message.  The SDK encoder is a parameter;
the chunk is its byte list, whose length is `size`. -/
def ondataavailable (encode : List Nat → String) (socketPresent : Bool)
    (data : List Nat) : List OutAction :=
  if data.length < 1 then []
  else
    let encodedAudioData := encode data
    if socketPresent then [OutAction.sendAudioInput encodedAudioData] else []

/-- `handleWebSocketOpenEvent`: sets the intent flag and starts capture. -/
def handleWebSocketOpenEvent (s : AppState) : AppState :=
  captureAudio { s with connected := true }

/-- `handleWebSocketMessageEvent`: the dispatch over the inbound union.
`chat_metadata` stores the group id; `audio_output` converts and pushes the
blob then calls `playAudio` (the queue length is necessarily at least one);
`user_interruption` stops playback; everything else falls through the
`switch` unchanged. -/
def handleWebSocketMessageEvent (m : SubscribeEvent) (s : AppState) : AppState :=
  match m with
  | .chatMetadata g => { s with chatGroupId := some g }
  | .audioOutput d =>
      let blob := convertBase64ToBlob d mimeType
      let s1 := { s with
                    audioQueue := s.audioQueue ++ [blob],
                    enqueued := s.enqueued ++ [blob] }
      if 1 ≤ s1.audioQueue.length then playAudio s1 else s1
  | .userInterruption => stopAudio s
  | _ => s

/-- `handleWebSocketCloseEvent`: reconnects when the intent flag is still
set, otherwise reports the closure to diagnostics. -/
def handleWebSocketCloseEvent (succ : Bool) (s : AppState) : AppState :=
  if s.connected then connect succ s
  else handleError s

/-- `toggleConnection`: the click handler of the single button. -/
def toggleConnection (succ : Bool) (s : AppState) : AppState :=
  if s.isConnected then disconnect s else connect succ s

/-- The events driving the orchestrator: a button click, the socket `open`
event, an inbound message, the socket `close` event (the underlying
transport closes, then the handler runs; `succ` resolves the reconnect
handshake), and a render completion. -/
inductive Ev where
  | click (succ : Bool)
  | openEv
  | message (m : SubscribeEvent)
  | remoteClose (succ : Bool)
  | complete
deriving DecidableEq, Repr

/-- One event-loop turn. -/
def stepEv (s : AppState) : Ev → AppState
  | .click succ => toggleConnection succ s
  | .openEv =>
      match s.socket with
      | some _ => handleWebSocketOpenEvent s
      | none => s
  | .message m => handleWebSocketMessageEvent m s
  | .remoteClose succ =>
      match s.socket with
      | some i => handleWebSocketCloseEvent succ { s with transports := markClosed s.transports i }
      | none => s
  | .complete => renderComplete s

/-- Runs a sequence of events. -/
def execEv (evs : List Ev) (s : AppState) : AppState :=
  evs.foldl stepEv s

/-- The initial state of the module: every reference null, every flag false
except `resumeChats`, which is initialized to `true`. -/
def initialState : AppState :=
  { client := false
    transports := []
    socket := none
    connected := false
    recorder := false
    audioStream := false
    currentAudio := none
    isPlaying := false
    resumeChats := true
    chatGroupId := none
    audioQueue := []
    isConnected := false
    rendering := none
    played := []
    enqueued := []
    log := [] }

/-- The playback-only event alphabet: an `audio_output` enqueue, or the
completion of the chunk currently being rendered. -/
inductive PlayEv where
  | enq (data : String)
  | complete
deriving DecidableEq, Repr

/-- One playback event. -/
def playStep (s : AppState) : PlayEv → AppState
  | .enq d => handleWebSocketMessageEvent (.audioOutput d) s
  | .complete => renderComplete s

/-- Runs a sequence of playback events. -/
def playExec (evs : List PlayEv) (s : AppState) : AppState :=
  evs.foldl playStep s

/-- The playback-queue invariant: the chunks enqueued so far are exactly the
chunks whose playback has started followed by the pending queue, and
`isPlaying` mirrors whether a chunk is being rendered. -/
def PlaybackInv (s : AppState) : Prop :=
  s.enqueued = s.played ++ s.audioQueue ∧ s.isPlaying = s.rendering.isSome

/-- True exactly on the message kinds the dispatch `switch` recognizes. -/
def recognizedEvent : SubscribeEvent → Bool
  | .chatMetadata _ => true
  | .audioOutput _ => true
  | .userInterruption => true
  | _ => false

/-- Selects the connect attempts of an action log. -/
def isConnectAttempt : OutAction → Bool
  | .connectAttempt _ => true
  | _ => false

/-- The actions appended between an earlier state and a later one. -/
def newActions (s t : AppState) : List OutAction :=
  t.log.drop s.log.length

/-- At most one live (not yet closed) transport exists: any two live entries
of the transport history are the same entry. -/
def AtMostOneLive (s : AppState) : Prop :=
  ∀ j k tj tk, s.transports.get? j = some tj → s.transports.get? k = some tk →
    tj.closed = false → tk.closed = false → j = k

/-- Every live transport is the one the socket variable references. -/
def LiveIsCurrent (s : AppState) : Prop :=
  ∀ j t, s.transports.get? j = some t → t.closed = false → s.socket = some j

/-- Every transport in the history has been closed. -/
def AllClosed (s : AppState) : Prop :=
  ∀ j t, s.transports.get? j = some t → t.closed = true

/-- The connection-manager invariant: every live transport is the current
one, and a disconnected UI state means no live transport at all. -/
def SessionInv (s : AppState) : Prop :=
  LiveIsCurrent s ∧ (s.isConnected = false → AllClosed s)

theorem playAudio_of_isPlaying (s : AppState) (h : s.isPlaying = true) :
    playAudio s = s := by
  simp [playAudio, h]

theorem playAudio_nil (s : AppState) (h : s.audioQueue = []) :
    playAudio s = s := by
  simp [playAudio, h]

theorem playAudio_cons (s : AppState) (c : Blob) (rest : List Blob)
    (hq : s.audioQueue = c :: rest) (hp : s.isPlaying = false) :
    playAudio s =
      { s with isPlaying := true, audioQueue := rest, currentAudio := some c,
               rendering := some c, played := s.played ++ [c] } := by
  simp [playAudio, hq, hp]

theorem playAudio_playbackInv (s : AppState) (h : PlaybackInv s) :
    PlaybackInv (playAudio s) := by
  obtain ⟨h1, h2⟩ := h
  cases hq : s.audioQueue with
  | nil => rw [playAudio_nil s hq]; exact ⟨h1, h2⟩
  | cons c rest =>
    cases hp : s.isPlaying with
    | true => rw [playAudio_of_isPlaying s hp]; exact ⟨h1, h2⟩
    | false =>
      rw [playAudio_cons s c rest hq hp]
      refine ⟨?_, by simp⟩
      simp only [h1, hq, List.append_assoc, List.singleton_append]

theorem onended_playbackInv (s : AppState)
    (h1 : s.enqueued = s.played ++ s.audioQueue) (h2 : s.rendering = none) :
    PlaybackInv (onended s) := by
  simp only [onended]
  split
  · exact playAudio_playbackInv _ ⟨h1, by simp [h2]⟩
  · exact ⟨h1, by simp [h2]⟩

theorem playStep_playbackInv (s : AppState) (e : PlayEv) (h : PlaybackInv s) :
    PlaybackInv (playStep s e) := by
  obtain ⟨h1, h2⟩ := h
  cases e with
  | enq d =>
    simp only [playStep, handleWebSocketMessageEvent]
    split
    · exact playAudio_playbackInv _ ⟨by simp [h1], h2⟩
    · exact ⟨by simp [h1], h2⟩
  | complete =>
    simp only [playStep]
    cases hr : s.rendering with
    | none => unfold renderComplete; rw [hr]; exact ⟨h1, h2⟩
    | some c =>
      unfold renderComplete; rw [hr]
      exact onended_playbackInv _ h1 rfl

theorem playExec_playbackInv (evs : List PlayEv) (s : AppState) (h : PlaybackInv s) :
    PlaybackInv (playExec evs s) := by
  induction evs generalizing s with
  | nil => exact h
  | cons e evs ih => exact ih _ (playStep_playbackInv s e h)

/-- C1: for every sequence of enqueue (`audio_output`) events interleaved with
render-completion (`onended`) events, the chunks whose playback has started,
in start order, followed by the pending queue, are exactly the chunks
enqueued in arrival order — so playback follows the FIFO enqueue order —
and at every instant `isPlaying` is true exactly when a chunk (necessarily at
most one, `rendering` being a single optional slot) is being rendered. -/
theorem c1_fifo_single_renderer (evs : List PlayEv) :
    (playExec evs initialState).enqueued
        = (playExec evs initialState).played ++ (playExec evs initialState).audioQueue ∧
    ((playExec evs initialState).isPlaying = true ↔
      (playExec evs initialState).rendering ≠ none) := by
  obtain ⟨h1, h2⟩ := playExec_playbackInv evs initialState ⟨rfl, rfl⟩
  refine ⟨h1, ?_⟩
  rw [h2]
  cases (playExec evs initialState).rendering <;> simp

theorem onended_stopAudio_fixed (s : AppState) : onended (stopAudio s) = stopAudio s := by
  simp [onended, stopAudio]

/-- C5: after `stopAudio` — which halts rendering, discards the queue, and
resets `isPlaying` — any number of pending `onended` callbacks from the
discarded chunks leave the state exactly where `stopAudio` left it: nothing
further is played (the `played` trace is unchanged), nothing is rendering,
and the queue stays empty until a new enqueue occurs. -/
theorem c5_stop_discards_pending_completions (s : AppState) (n : Nat) :
    onended^[n] (stopAudio s) = stopAudio s ∧
    (stopAudio s).played = s.played ∧
    (stopAudio s).isPlaying = false ∧
    (stopAudio s).rendering = none ∧
    (stopAudio s).audioQueue = [] :=
  ⟨Function.iterate_fixed (onended_stopAudio_fixed s) n, rfl, rfl, rfl, rfl⟩

theorem markClosed_idem (ts : List Transport) (i : Nat) :
    markClosed (markClosed ts i) i = markClosed ts i := by
  induction ts generalizing i with
  | nil => rfl
  | cons t ts ih =>
    cases i with
    | zero => rfl
    | succ n => simp [markClosed, ih]

/-- C7: `disconnect()` is idempotent — running it twice from any state yields
exactly the state of running it once, on every component of the state
(recorder, audio stream, intent flag, playback fields, `chatGroupId`,
`isConnected`, transports, and the observable action log). -/
theorem c7_disconnect_idempotent (s : AppState) :
    disconnect (disconnect s) = disconnect s := by
  obtain ⟨cl, ts, so, co, re, au, cu, ip, rc, cg, aq, ic, rd, pl, en, lg⟩ := s
  cases rc <;> cases so <;>
    simp [disconnect, stopAudio, markClosed_idem]

/-- C9: an inbound message of any kind the dispatch `switch` does not
recognize leaves the entire state — session fields, playback queue, and
action log — unchanged, and raises no error. -/
theorem c9_unrecognized_ignored (s : AppState) (m : SubscribeEvent)
    (h : recognizedEvent m = false) :
    handleWebSocketMessageEvent m s = s := by
  cases m <;> first
    | rfl
    | simp [recognizedEvent] at h

/-- C10: whenever the queue is non-empty and nothing is playing, the shift in
`playAudio` yields the head chunk — the undefined-guard early return is
unreachable — and the call starts playback of exactly that one chunk; in
particular this branch never produces `isPlaying == true` with nothing
rendering. -/
theorem c10_shift_guard_unreachable (s : AppState)
    (h1 : s.audioQueue ≠ []) (h2 : s.isPlaying = false) :
    ∃ c rest, s.audioQueue = c :: rest ∧
      playAudio s =
        { s with isPlaying := true, audioQueue := rest, currentAudio := some c,
                 rendering := some c, played := s.played ++ [c] } ∧
      (playAudio s).isPlaying = true ∧ (playAudio s).rendering ≠ none := by
  cases hq : s.audioQueue with
  | nil => exact absurd hq h1
  | cons c rest =>
    refine ⟨c, rest, rfl, playAudio_cons s c rest hq h2, ?_, ?_⟩ <;>
      simp [playAudio_cons s c rest hq h2]

/-- A state in which the connection is up: one live transport referenced by
the socket variable, capture running, and a resume id on record. -/
def sampleConnected : AppState :=
  { initialState with
      client := true,
      transports := [{ resumedChatGroupId := none, closed := false }],
      socket := some 0,
      connected := true,
      recorder := true,
      audioStream := true,
      chatGroupId := some "g0",
      isConnected := true }

/-- A state with one chunk queued and nothing playing. -/
def sampleQueued : AppState :=
  { initialState with audioQueue := [{ data := "d0", mime := mimeType }] }

theorem c9_unrecognized_ignored_witness :
    handleWebSocketMessageEvent SubscribeEvent.userMessage sampleConnected = sampleConnected :=
  c9_unrecognized_ignored sampleConnected SubscribeEvent.userMessage rfl

theorem c10_shift_guard_unreachable_witness :
    ∃ c rest, sampleQueued.audioQueue = c :: rest ∧
      playAudio sampleQueued =
        { sampleQueued with isPlaying := true, audioQueue := rest,
                            currentAudio := some c, rendering := some c,
                            played := sampleQueued.played ++ [c] } ∧
      (playAudio sampleQueued).isPlaying = true ∧ (playAudio sampleQueued).rendering ≠ none :=
  c10_shift_guard_unreachable sampleQueued (by decide) rfl

/-- C2: when the close event fires with the intent flag still true, exactly
one `connect()` attempt is observed, and it carries the last known
`chatGroupId`; when the flag is false no connect attempt is observed, but
the closure is still reported to the diagnostics channel. -/
theorem c2_close_reconnect_policy (s : AppState) (succ : Bool) :
    (s.connected = true →
      (newActions s (handleWebSocketCloseEvent succ s)).filter isConnectAttempt
        = [OutAction.connectAttempt s.chatGroupId]) ∧
    (s.connected = false →
      (newActions s (handleWebSocketCloseEvent succ s)).filter isConnectAttempt = [] ∧
      OutAction.reportError ∈ newActions s (handleWebSocketCloseEvent succ s)) := by
  constructor
  · intro h
    cases succ <;>
      simp [newActions, handleWebSocketCloseEvent, h, connect, handleError, isConnectAttempt,
        List.drop_left]
  · intro h
    simp [newActions, handleWebSocketCloseEvent, h, handleError, isConnectAttempt,
      List.drop_left]

theorem c2_close_reconnect_policy_witness :
    (newActions sampleConnected
        (handleWebSocketCloseEvent true sampleConnected)).filter isConnectAttempt
      = [OutAction.connectAttempt (some "g0")] :=
  (c2_close_reconnect_policy sampleConnected true).1 rfl

/-- C4: with resumption enabled, the `chatGroupId` captured from the most
recent `chat_metadata` event is the `resumedChatGroupId` carried by the
`connect()` attempt made after an unintended close; with resumption
disabled, `disconnect()` clears `chatGroupId`. -/
theorem c4_resume_group_id (s : AppState) (g : String) (succ : Bool) :
    (s.resumeChats = true → s.connected = true →
      (newActions s (handleWebSocketCloseEvent succ
          (handleWebSocketMessageEvent (SubscribeEvent.chatMetadata g) s))).filter
            isConnectAttempt
        = [OutAction.connectAttempt (some g)]) ∧
    (s.resumeChats = false → (disconnect s).chatGroupId = none) := by
  constructor
  · intro _ h
    cases succ <;>
      simp [newActions, handleWebSocketMessageEvent, handleWebSocketCloseEvent, h, connect,
        handleError, isConnectAttempt, List.drop_left]
  · intro h
    cases hsoc : s.socket <;> simp [disconnect, stopAudio, h, hsoc]

theorem c4_resume_group_id_witness :
    (newActions sampleConnected (handleWebSocketCloseEvent true
        (handleWebSocketMessageEvent (SubscribeEvent.chatMetadata "g1")
          sampleConnected))).filter isConnectAttempt
      = [OutAction.connectAttempt (some "g1")] :=
  (c4_resume_group_id sampleConnected "g1" true).1 rfl rfl

/-- C6: a recorder chunk of size zero is dropped with no outbound send; a
non-empty chunk, when a socket reference is present, is base64 encoded and
handed to the transport as exactly one `audio_input` send. -/
theorem c6_chunk_send_policy (encode : List Nat → String) (socketPresent : Bool)
    (data : List Nat) :
    (data.length = 0 → ondataavailable encode socketPresent data = []) ∧
    (1 ≤ data.length → socketPresent = true →
      ondataavailable encode socketPresent data
        = [OutAction.sendAudioInput (encode data)]) := by
  constructor
  · intro h
    simp [ondataavailable, h]
  · intro h hs
    simp [ondataavailable, hs, Nat.not_lt.mpr h]

/-- A stand-in for the external base64 encoder. -/
def sampleEncode : List Nat → String := fun _ => "QUJD"

theorem c6_chunk_send_policy_witness :
    ondataavailable sampleEncode true [1, 2, 3]
      = [OutAction.sendAudioInput (sampleEncode [1, 2, 3])] :=
  (c6_chunk_send_policy sampleEncode true [1, 2, 3]).2 (by decide) rfl

theorem markClosed_get? (ts : List Transport) (i j : Nat) :
    (markClosed ts i).get? j
      = if i = j then (ts.get? j).map (fun t => { t with closed := true })
        else ts.get? j := by
  induction ts generalizing i j with
  | nil => simp [markClosed]
  | cons t ts ih =>
    cases i with
    | zero =>
      cases j with
      | zero => simp [markClosed]
      | succ j => simp [markClosed]
    | succ i =>
      cases j with
      | zero => simp [markClosed]
      | succ j => simpa [markClosed] using ih i j

theorem playAudio_session_fields (s : AppState) :
    (playAudio s).transports = s.transports ∧ (playAudio s).socket = s.socket ∧
    (playAudio s).isConnected = s.isConnected := by
  cases hq : s.audioQueue with
  | nil => rw [playAudio_nil s hq]; exact ⟨rfl, rfl, rfl⟩
  | cons c rest =>
    cases hp : s.isPlaying with
    | true => rw [playAudio_of_isPlaying s hp]; exact ⟨rfl, rfl, rfl⟩
    | false => rw [playAudio_cons s c rest hq hp]; exact ⟨rfl, rfl, rfl⟩

theorem onended_session_fields (s : AppState) :
    (onended s).transports = s.transports ∧ (onended s).socket = s.socket ∧
    (onended s).isConnected = s.isConnected := by
  simp only [onended]
  split
  · exact playAudio_session_fields _
  · exact ⟨rfl, rfl, rfl⟩

theorem renderComplete_session_fields (s : AppState) :
    (renderComplete s).transports = s.transports ∧ (renderComplete s).socket = s.socket ∧
    (renderComplete s).isConnected = s.isConnected := by
  cases hr : s.rendering with
  | none => unfold renderComplete; rw [hr]; exact ⟨rfl, rfl, rfl⟩
  | some c => unfold renderComplete; rw [hr]; exact onended_session_fields _

theorem message_session_fields (m : SubscribeEvent) (s : AppState) :
    (handleWebSocketMessageEvent m s).transports = s.transports ∧
    (handleWebSocketMessageEvent m s).socket = s.socket ∧
    (handleWebSocketMessageEvent m s).isConnected = s.isConnected := by
  cases m <;> try exact ⟨rfl, rfl, rfl⟩
  simp only [handleWebSocketMessageEvent]
  split
  · exact playAudio_session_fields _
  · exact ⟨rfl, rfl, rfl⟩

theorem sessionInv_congr (s t : AppState) (h : SessionInv s)
    (h1 : t.transports = s.transports) (h2 : t.socket = s.socket)
    (h3 : t.isConnected = s.isConnected) : SessionInv t := by
  obtain ⟨hA, hB⟩ := h
  refine ⟨?_, ?_⟩
  · intro j u hj hc
    rw [h2]
    exact hA j u (h1 ▸ hj) hc
  · intro hic j u hj
    exact hB (h3 ▸ hic) j u (h1 ▸ hj)

theorem connect_false_fields (s : AppState) :
    (connect false s).transports = s.transports ∧ (connect false s).socket = s.socket ∧
    (connect false s).isConnected = s.isConnected := by
  simp [connect, handleError]

theorem connect_true_fields (s : AppState) :
    (connect true s).transports
        = s.transports ++ [{ resumedChatGroupId := s.chatGroupId, closed := false }] ∧
    (connect true s).socket = some s.transports.length ∧
    (connect true s).isConnected = true := by
  simp [connect]

theorem connect_sessionInv (succ : Bool) (s : AppState) (h : AllClosed s) :
    SessionInv (connect succ s) := by
  cases succ with
  | false =>
    obtain ⟨h1, h2, h3⟩ := connect_false_fields s
    refine ⟨?_, ?_⟩
    · intro j t hj hc
      rw [h1] at hj
      rw [h j t hj] at hc
      cases hc
    · intro _ j t hj
      rw [h1] at hj
      exact h j t hj
  | true =>
    obtain ⟨h1, h2, h3⟩ := connect_true_fields s
    refine ⟨?_, ?_⟩
    · intro j t hj hc
      rw [h1] at hj
      rw [h2]
      rcases Nat.lt_trichotomy j s.transports.length with hlt | heq | hgt
      · rw [List.get?_append hlt] at hj
        rw [h j t hj] at hc
        cases hc
      · rw [heq]
      · obtain ⟨k, hk⟩ : ∃ k, j - s.transports.length = k + 1 :=
          ⟨j - s.transports.length - 1, by omega⟩
        rw [List.get?_append_right (Nat.le_of_lt hgt), hk] at hj
        simp at hj
    · intro hic
      rw [h3] at hic
      cases hic

theorem disconnect_fields_some (s : AppState) (i : Nat) (h : s.socket = some i) :
    (disconnect s).transports = markClosed s.transports i ∧
    (disconnect s).socket = some i ∧ (disconnect s).isConnected = false := by
  cases hrc : s.resumeChats <;> simp [disconnect, stopAudio, h, hrc]

theorem disconnect_fields_none (s : AppState) (h : s.socket = none) :
    (disconnect s).transports = s.transports ∧
    (disconnect s).socket = none ∧ (disconnect s).isConnected = false := by
  cases hrc : s.resumeChats <;> simp [disconnect, stopAudio, h, hrc]

theorem disconnect_sessionInv (s : AppState) (h : SessionInv s) :
    SessionInv (disconnect s) := by
  obtain ⟨hA, _⟩ := h
  have hall : AllClosed (disconnect s) := by
    intro j t hj
    cases hsoc : s.socket with
    | none =>
      rw [(disconnect_fields_none s hsoc).1] at hj
      cases hc : t.closed with
      | true => rfl
      | false =>
        rw [hA j t hj hc] at hsoc
        cases hsoc
    | some i =>
      rw [(disconnect_fields_some s i hsoc).1, markClosed_get?] at hj
      by_cases hij : i = j
      · rw [if_pos hij] at hj
        cases hget : s.transports.get? j with
        | none => rw [hget] at hj; cases hj
        | some u =>
          rw [hget] at hj
          obtain rfl := Option.some.inj hj
          rfl
      · rw [if_neg hij] at hj
        cases hc : t.closed with
        | true => rfl
        | false =>
          rw [hA j t hj hc] at hsoc
          exact absurd (Option.some.inj hsoc) fun hji => hij hji.symm
  exact ⟨fun j t hj hc => absurd (hall j t hj) (by simp [hc]), fun _ => hall⟩

theorem handleClose_sessionInv (succ : Bool) (s : AppState) (h : AllClosed s) :
    SessionInv (handleWebSocketCloseEvent succ s) := by
  unfold handleWebSocketCloseEvent
  split
  · exact connect_sessionInv succ s h
  · exact ⟨fun j t hj hc => absurd (h j t hj) (by simp [hc]), fun _ j t hj => h j t hj⟩

theorem markClosed_current_allClosed (s : AppState) (i : Nat) (hsoc : s.socket = some i)
    (hA : LiveIsCurrent s) :
    AllClosed { s with transports := markClosed s.transports i } := by
  intro j t hj
  rw [show ({ s with transports := markClosed s.transports i } : AppState).transports
        = markClosed s.transports i from rfl, markClosed_get?] at hj
  by_cases hij : i = j
  · rw [if_pos hij] at hj
    cases hget : s.transports.get? j with
    | none => rw [hget] at hj; cases hj
    | some u =>
      rw [hget] at hj
      obtain rfl := Option.some.inj hj
      rfl
  · rw [if_neg hij] at hj
    cases hc : t.closed with
    | true => rfl
    | false =>
      rw [hA j t hj hc] at hsoc
      exact absurd (Option.some.inj hsoc) fun hji => hij hji.symm

theorem stepEv_sessionInv (s : AppState) (e : Ev) (h : SessionInv s) :
    SessionInv (stepEv s e) := by
  cases e with
  | click succ =>
    simp only [stepEv, toggleConnection]
    split
    · exact disconnect_sessionInv s h
    · rename_i hic
      exact connect_sessionInv succ s (h.2 (by simpa using hic))
  | openEv =>
    simp only [stepEv]
    cases hsoc : s.socket with
    | none => exact h
    | some i => exact sessionInv_congr s _ h rfl rfl rfl
  | message m =>
    obtain ⟨h1, h2, h3⟩ := message_session_fields m s
    exact sessionInv_congr s _ h h1 h2 h3
  | remoteClose succ =>
    simp only [stepEv]
    cases hsoc : s.socket with
    | none => exact h
    | some i => exact handleClose_sessionInv succ _ (markClosed_current_allClosed s i hsoc h.1)
  | complete =>
    obtain ⟨h1, h2, h3⟩ := renderComplete_session_fields s
    exact sessionInv_congr s _ h h1 h2 h3

theorem execEv_sessionInv (evs : List Ev) (s : AppState) (h : SessionInv s) :
    SessionInv (execEv evs s) := by
  induction evs generalizing s with
  | nil => exact h
  | cons e evs ih => exact ih _ (stepEv_sessionInv s e h)

theorem initial_sessionInv : SessionInv initialState :=
  ⟨fun j t hj => by simp [initialState] at hj,
   fun _ j t hj => by simp [initialState] at hj⟩

/-- C3: in every state reachable from startup by any sequence of clicks,
socket open/close events, inbound messages, and render completions, at most
one live (unclosed) transport exists: any two live entries of the transport
history coincide.  In particular the one code path that invokes `connect()`
while `isConnected` is still true — the close handler — never yields a
second live transport, because the transport it reacts to has just closed. -/
theorem c3_at_most_one_live_transport (evs : List Ev) :
    AtMostOneLive (execEv evs initialState) := by
  obtain ⟨hA, _⟩ := execEv_sessionInv evs initialState initial_sessionInv
  intro j k tj tk hj hk hcj hck
  have h1 := hA j tj hj hcj
  have h2 := hA k tk hk hck
  rw [h1] at h2
  exact Option.some.inj h2

/-- C8 counterexample: connect, then user-initiated disconnect.  The
transport has been closed, yet the socket reference still points at it —
the code never sets the reference back to null, so the claim that the
reference is nulled on every close is false on this concrete run. -/
theorem c8_reference_not_nulled :
    (execEv [Ev.click true, Ev.click true] initialState).transports
        = [{ resumedChatGroupId := none, closed := true }] ∧
    (execEv [Ev.click true, Ev.click true] initialState).socket = some 0 ∧
    (execEv [Ev.click true, Ev.click true] initialState).socket ≠ none := by
  refine ⟨?_, ?_, ?_⟩ <;> decide

/-- C8 amended: on every close the transport itself is closed, but the
reference is never reset to null: `disconnect()` closes the referenced
transport and leaves the reference pointing at it, and an unintended close
with the intent flag off also leaves the reference unchanged; the reference
is only ever replaced by the next successful `connect()`. -/
theorem c8_amended_close_never_nulls (s : AppState) (i : Nat)
    (h1 : s.socket = some i) (h2 : i < s.transports.length) :
    (disconnect s).socket = some i ∧
    ((disconnect s).transports.get? i).map Transport.closed = some true ∧
    (s.connected = false → (stepEv s (Ev.remoteClose false)).socket = s.socket) := by
  obtain ⟨ht, hs, _⟩ := disconnect_fields_some s i h1
  refine ⟨hs, ?_, ?_⟩
  · obtain ⟨t, hget⟩ : ∃ t, s.transports.get? i = some t := by
      cases hg : s.transports.get? i with
      | some t => exact ⟨t, rfl⟩
      | none =>
        rw [List.get?_eq_none] at hg
        omega
    rw [ht, markClosed_get?, if_pos rfl, hget]
    rfl
  · intro hc
    simp [stepEv, h1, handleWebSocketCloseEvent, hc, handleError]

theorem c8_amended_close_never_nulls_witness :
    (disconnect sampleConnected).socket = some 0 ∧
    ((disconnect sampleConnected).transports.get? 0).map Transport.closed = some true ∧
    (sampleConnected.connected = false →
      (stepEv sampleConnected (Ev.remoteClose false)).socket = sampleConnected.socket) :=
  c8_amended_close_never_nulls sampleConnected 0 rfl (by decide)
